import Mathlib

/-!
Shallow embedding of the zabx_telegram_bot webhook relay core:
the alert correlation handler (internal/handler/handler.go), the message
formatter, and the networked correlation store (internal/store/store.go,
RedisStore).  Pure Go functions become Lean functions; the HTTP handler
becomes a function from the request, the configured secret, the transport
behaviour and the store state to a result record (status code, new store
state, list of transport calls).  Machine integers (Go int message IDs)
are modelled as Int; Go time.Time is modelled by the already formatted
timestamp string that the code produces with Format(timeFormat).
-/

set_option maxRecDepth 4000

namespace ZabxBot

/-- AlertStatus is a string in the Go code; StatusProblem is the constant "PROBLEM". -/
def statusProblem : String := "PROBLEM"

/-- StatusResolved is the constant "RESOLVED". -/
def statusResolved : String := "RESOLVED"

/-- ZabbixAlert: the JSON payload POSTed by Zabbix (handler.go). -/
structure ZabbixAlert where
  triggerID : String
  triggerName : String
  status : String
  severity : String
  host : String
  eventID : String
  message : String
  secret : String
deriving DecidableEq, Repr

/-- Entry: the correlation record stored per open event
(messageID, startTime, message, severity). -/
structure Entry where
  messageID : Int
  startTime : String
  message : String
  severity : String
deriving DecidableEq, Repr

/-- The correlation store, as the mapping it represents: event ID to entry. -/
def Store : Type := String → Option Entry

/-- Get returns the entry for the key, if present. -/
def Store.get (s : Store) (k : String) : Option Entry := s k

/-- Set stores the entry under the key (map update). -/
def Store.set (s : Store) (k : String) (e : Entry) : Store :=
  fun k2 => if k2 = k then some e else s k2

/-- Delete removes the entry for the key (map erase). -/
def Store.delete (s : Store) (k : String) : Store :=
  fun k2 => if k2 = k then none else s k2

/-- The empty store. -/
def Store.empty : Store := fun _ => none

/-- Behaviour of the Sender (Telegram transport) as seen by one request:
SendMessage returns a message ID or an error, EditMessage returns ok or an
error.  The error payload is irrelevant to the handler, so it is Unit. -/
structure Bot where
  sendMessage : String → Except Unit Int
  editMessage : Int → String → Except Unit Unit

/-- One recorded call to the transport. -/
inductive BotCall where
  | send (text : String)
  | edit (messageID : Int) (text : String)
deriving DecidableEq, Repr

/-- An inbound HTTP request: its method and the result of decoding its JSON
body as a ZabbixAlert (none models a malformed body). -/
structure Request where
  method : String
  body : Option ZabbixAlert

/-- What one call of ServeHTTP produces: the HTTP status code written, the
store state afterwards, and the transport calls made (in order, failed
calls included). -/
structure HandlerResult where
  statusCode : Nat
  store : Store
  calls : List BotCall

/-- Model of strings.ReplaceAll with a single-character pattern, on the
character list of the string: each occurrence of the character old is
replaced by rep, scanning left to right; the replacement text is not
rescanned.  The three patterns used by escapeHTML are single ASCII
characters, for which the Go byte-level scan coincides with this
character-level scan. -/
def replaceAllChar : List Char → Char → List Char → List Char
  | [], _, _ => []
  | c :: cs, old, rep => (if c = old then rep else [c]) ++ replaceAllChar cs old rep

/-- escapeHTML from handler.go: ReplaceAll amp, then lt, then gt. -/
def escapeHTML (s : String) : String :=
  ⟨replaceAllChar (replaceAllChar (replaceAllChar s.data '&' "&amp;".data)
      '<' "&lt;".data) '>' "&gt;".data⟩

/-- statusEmoji from handler.go. -/
def statusEmoji (s : String) : String :=
  if s = statusProblem then "🔴"
  else if s = statusResolved then "✅"
  else "ℹ️"

/-- severityEmoji from handler.go: switch on strings.ToUpper(sev). -/
def severityEmoji (sev : String) : String :=
  let u := sev.toUpper
  if u = "DISASTER" then "💀"
  else if u = "HIGH" then "🔥"
  else if u = "AVERAGE" then "⚡"
  else if u = "WARNING" then "⚠️"
  else if u = "INFORMATION" then "ℹ️"
  else if u = "NOT_CLASSIFIED" then "❓"
  else "❔"

/-- formatMessage from handler.go, with now the formatted current time.
The string builder is modelled by an accumulator rebound after each
conditional write, exactly following the sequence of WriteString calls. -/
def formatMessage (a : ZabbixAlert) (now startTime origMessage : String) : String :=
  let sb := statusEmoji a.status ++ " <b>" ++ escapeHTML a.status ++ "</b>\n"
  let sb := if a.triggerName ≠ "" then
      sb ++ "🔔 <b>Trigger:</b> " ++ escapeHTML a.triggerName ++ "\n" else sb
  let sb := if a.host ≠ "" then
      sb ++ "🖥 <b>Host:</b> " ++ escapeHTML a.host ++ "\n" else sb
  let sb := if a.severity ≠ "" then
      sb ++ severityEmoji a.severity ++ " <b>Severity:</b> " ++ escapeHTML a.severity ++ "\n"
    else sb
  let msg := if a.status = statusResolved ∧ origMessage ≠ "" then origMessage else a.message
  let sb := if msg ≠ "" then
      sb ++ "📝 <b>Details:</b> " ++ escapeHTML msg ++ "\n" else sb
  let sb := if a.eventID ≠ "" then
      sb ++ "🆔 <b>Event ID:</b> " ++ escapeHTML a.eventID ++ "\n" else sb
  if a.status = statusResolved then
    (if startTime ≠ "" then sb ++ "🕐 <b>Start Time:</b> " ++ startTime ++ "\n" else sb)
      ++ "🕑 <b>End Time:</b> " ++ now
  else
    sb ++ "🕐 <b>Start Time:</b> " ++ now

/-- ServeHTTP from handler.go.  secret is the configured shared secret, st
the store state when the request is processed, now the formatted current
time of this request.  Status codes: 405 method not allowed, 400 bad
request, 401 unauthorized, 500 internal server error, 200 ok. -/
def serveHTTP (secret : String) (bot : Bot) (st : Store) (req : Request) (now : String) :
    HandlerResult :=
  if req.method ≠ "POST" then ⟨405, st, []⟩
  else
    match req.body with
    | none => ⟨400, st, []⟩
    | some alert =>
      if alert.eventID = "" then ⟨400, st, []⟩
      else if secret ≠ "" ∧ alert.secret ≠ secret then ⟨401, st, []⟩
      else if alert.status = statusProblem then
        let text := formatMessage alert now "" ""
        match bot.sendMessage text with
        | .error _ => ⟨500, st, [.send text]⟩
        | .ok msgID =>
          ⟨200, st.set alert.eventID ⟨msgID, now, alert.message, alert.severity⟩, [.send text]⟩
      else if alert.status = statusResolved then
        match st.get alert.eventID with
        | some entry =>
          let alert2 := if alert.severity = "" ∧ entry.severity ≠ "" then
              { alert with severity := entry.severity } else alert
          let text := formatMessage alert2 now entry.startTime entry.message
          match bot.editMessage entry.messageID text with
          | .error _ => ⟨500, st, [.edit entry.messageID text]⟩
          | .ok _ => ⟨200, st.delete alert.eventID, [.edit entry.messageID text]⟩
        | none =>
          let text := formatMessage alert now "" ""
          match bot.sendMessage text with
          | .error _ => ⟨500, st, [.send text]⟩
          | .ok _ => ⟨200, st, [.send text]⟩
      else
        let text := formatMessage alert now "" ""
        match bot.sendMessage text with
        | .error _ => ⟨500, st, [.send text]⟩
        | .ok _ => ⟨200, st, [.send text]⟩

/-- The zero Entry value, which RedisStore.Get returns on any failure. -/
def zeroEntry : Entry := ⟨0, "", "", ""⟩

/-- RedisStore.Get from store.go.  The remote backend is modelled by the
mapping from keys to serialised values it currently holds; backendFail
models a non-Nil error of the GET call (connection failure or the 5 second
operation timeout); unmarshal models json.Unmarshal on the fetched bytes.
The Go signature returns (Entry, bool) with no error channel at all. -/
def redisStoreGet (unmarshal : String → Except Unit Entry) (backendFail : Bool)
    (backend : String → Option String) (eventID : String) : Entry × Bool :=
  if backendFail then (zeroEntry, false)
  else
    match backend eventID with
    | none => (zeroEntry, false)
    | some data =>
      match unmarshal data with
      | .error _ => (zeroEntry, false)
      | .ok e => (e, true)

/-- RedisStore.Set from store.go: marshal the entry, then SET.  A marshal
error or a backend error is logged and dropped; the Go signature returns
nothing, so the caller never sees an error. -/
def redisStoreSet (marshal : Entry → Except Unit String) (backendFail : Bool)
    (backend : String → Option String) (eventID : String) (entry : Entry) :
    String → Option String :=
  match marshal entry with
  | .error _ => backend
  | .ok data =>
    if backendFail then backend
    else fun k => if k = eventID then some data else backend k

/-- RedisStore.Delete from store.go: DEL, with any error logged and
dropped; the Go signature returns nothing. -/
def redisStoreDelete (backendFail : Bool) (backend : String → Option String)
    (eventID : String) : String → Option String :=
  if backendFail then backend
  else fun k => if k = eventID then none else backend k

/-- The secret gate passes exactly when no secret is configured or the alert
secret matches; helper shared by several theorems. -/
theorem secret_gate_pass {secret s : String} (h : secret = "" ∨ s = secret) :
    ¬(secret ≠ "" ∧ s ≠ secret) := by
  rcases h with h | h <;> simp [h]

/-- C2: a well-formed POST with non-empty event_id, passing secret, status
PROBLEM and a successful send responds 200, records exactly one send and no
edit, and stores an entry with the returned handle, the formatted current
time, and the message and severity of the alert itself. -/
theorem C2_problem_success (secret now : String) (bot : Bot) (st : Store)
    (a : ZabbixAlert) (m : Int)
    (hid : a.eventID ≠ "")
    (hsec : secret = "" ∨ a.secret = secret)
    (hst : a.status = statusProblem)
    (hsend : bot.sendMessage (formatMessage a now "" "") = .ok m) :
    (serveHTTP secret bot st ⟨"POST", some a⟩ now).statusCode = 200 ∧
    (serveHTTP secret bot st ⟨"POST", some a⟩ now).calls =
      [.send (formatMessage a now "" "")] ∧
    (serveHTTP secret bot st ⟨"POST", some a⟩ now).store.get a.eventID =
      some ⟨m, now, a.message, a.severity⟩ := by
  simp [serveHTTP, hid, secret_gate_pass hsec, hst, hsend, Store.get, Store.set]

/-- Witness for C2 at a concrete input. -/
theorem C2_problem_success_witness :
    (serveHTTP "" ⟨fun _ => .ok 1, fun _ _ => .ok ()⟩ Store.empty
        ⟨"POST", some ⟨"100", "High CPU", "PROBLEM", "High", "server1", "100", "", ""⟩⟩
        "N").statusCode = 200 ∧
    (serveHTTP "" ⟨fun _ => .ok 1, fun _ _ => .ok ()⟩ Store.empty
        ⟨"POST", some ⟨"100", "High CPU", "PROBLEM", "High", "server1", "100", "", ""⟩⟩
        "N").calls =
      [.send (formatMessage ⟨"100", "High CPU", "PROBLEM", "High", "server1", "100", "", ""⟩
        "N" "" "")] ∧
    (serveHTTP "" ⟨fun _ => .ok 1, fun _ _ => .ok ()⟩ Store.empty
        ⟨"POST", some ⟨"100", "High CPU", "PROBLEM", "High", "server1", "100", "", ""⟩⟩
        "N").store.get "100" = some ⟨1, "N", "", "High"⟩ :=
  C2_problem_success "" "N" ⟨fun _ => .ok 1, fun _ _ => .ok ()⟩ Store.empty
    ⟨"100", "High CPU", "PROBLEM", "High", "server1", "100", "", ""⟩ 1
    (by decide) (Or.inl rfl) rfl rfl

/-- C5: the validation gate fires in order with the stated codes: 405 for
any non-POST method, 400 for a malformed body, 400 for an empty event_id
(even when the secret is wrong, since the event_id check comes first), 401
when a secret is configured and the alert secret differs, and an empty
configured secret never yields 401; on every rejection the store is
unchanged and no transport call is made. -/
theorem C5_validation_gate (secret now : String) (bot : Bot) (st : Store) :
    (∀ method body, method ≠ "POST" →
      serveHTTP secret bot st ⟨method, body⟩ now = ⟨405, st, []⟩) ∧
    (serveHTTP secret bot st ⟨"POST", none⟩ now = ⟨400, st, []⟩) ∧
    (∀ a : ZabbixAlert, a.eventID = "" →
      serveHTTP secret bot st ⟨"POST", some a⟩ now = ⟨400, st, []⟩) ∧
    (∀ a : ZabbixAlert, a.eventID ≠ "" → secret ≠ "" → a.secret ≠ secret →
      serveHTTP secret bot st ⟨"POST", some a⟩ now = ⟨401, st, []⟩) ∧
    (∀ a : ZabbixAlert, secret = "" →
      (serveHTTP secret bot st ⟨"POST", some a⟩ now).statusCode ≠ 401) := by
  refine ⟨?_, ?_, ?_, ?_, ?_⟩
  · intro method body h
    simp [serveHTTP, h]
  · simp [serveHTTP]
  · intro a h
    simp [serveHTTP, h]
  · intro a hid hs ha
    simp [serveHTTP, hid, hs, ha]
  · intro a hs
    by_cases hid : a.eventID = ""
    · simp [serveHTTP, hid]
    · simp only [serveHTTP, hs]
      simp only [ne_eq, not_true_eq_false, false_and, if_false]
      split
      · simp [hid]
      · split
        · split <;> simp
        · split
          · split
            · split <;> simp
            · split <;> simp
          · split <;> simp

/-- Witness for C5 at concrete inputs. -/
theorem C5_validation_gate_witness :
    (∀ method body, method ≠ "POST" →
      serveHTTP "s" ⟨fun _ => .ok 1, fun _ _ => .ok ()⟩ Store.empty ⟨method, body⟩ "N" =
        ⟨405, Store.empty, []⟩) ∧
    (serveHTTP "s" ⟨fun _ => .ok 1, fun _ _ => .ok ()⟩ Store.empty ⟨"POST", none⟩ "N" =
      ⟨400, Store.empty, []⟩) ∧
    (∀ a : ZabbixAlert, a.eventID = "" →
      serveHTTP "s" ⟨fun _ => .ok 1, fun _ _ => .ok ()⟩ Store.empty ⟨"POST", some a⟩ "N" =
        ⟨400, Store.empty, []⟩) ∧
    (∀ a : ZabbixAlert, a.eventID ≠ "" → "s" ≠ "" → a.secret ≠ "s" →
      serveHTTP "s" ⟨fun _ => .ok 1, fun _ _ => .ok ()⟩ Store.empty ⟨"POST", some a⟩ "N" =
        ⟨401, Store.empty, []⟩) ∧
    (∀ a : ZabbixAlert, "s" = "" →
      (serveHTTP "s" ⟨fun _ => .ok 1, fun _ _ => .ok ()⟩ Store.empty
          ⟨"POST", some a⟩ "N").statusCode ≠ 401) :=
  C5_validation_gate "s" "N" ⟨fun _ => .ok 1, fun _ _ => .ok ()⟩ Store.empty

/-- C3: when every transport call fails, every request that passes the gate
(so the failing call is the one the branch makes: send on the PROBLEM,
informational and untracked-RESOLVED paths, edit on the tracked-RESOLVED
path) gets response 500 and leaves the store exactly as it was. -/
theorem C3_transport_failure (secret now : String) (bot : Bot) (st : Store)
    (a : ZabbixAlert)
    (hid : a.eventID ≠ "")
    (hsec : secret = "" ∨ a.secret = secret)
    (hsend : ∀ t, bot.sendMessage t = .error ())
    (hedit : ∀ i t, bot.editMessage i t = .error ()) :
    (serveHTTP secret bot st ⟨"POST", some a⟩ now).statusCode = 500 ∧
    (serveHTTP secret bot st ⟨"POST", some a⟩ now).store = st := by
  have hgate := secret_gate_pass hsec
  by_cases hp : a.status = statusProblem
  · constructor <;> simp [serveHTTP, hid, hgate, hp, hsend]
  · by_cases hr : a.status = statusResolved
    · cases hfound : st.get a.eventID with
      | some entry =>
        simp only [Store.get] at hfound
        constructor <;>
          simp [serveHTTP, hid, hgate, hp, hr, hfound, hedit, Store.get,
            statusProblem, statusResolved]
      | none =>
        simp only [Store.get] at hfound
        constructor <;>
          simp [serveHTTP, hid, hgate, hp, hr, hfound, hsend, Store.get,
            statusProblem, statusResolved]
    · constructor <;> simp [serveHTTP, hid, hgate, hp, hr, hsend]

/-- Witness for C3 at a concrete input. -/
theorem C3_transport_failure_witness :
    (serveHTTP "" ⟨fun _ => .error (), fun _ _ => .error ()⟩ Store.empty
        ⟨"POST", some ⟨"1", "", "PROBLEM", "", "", "7", "", ""⟩⟩ "N").statusCode = 500 ∧
    (serveHTTP "" ⟨fun _ => .error (), fun _ _ => .error ()⟩ Store.empty
        ⟨"POST", some ⟨"1", "", "PROBLEM", "", "", "7", "", ""⟩⟩ "N").store =
      Store.empty :=
  C3_transport_failure "" "N" ⟨fun _ => .error (), fun _ _ => .error ()⟩ Store.empty
    ⟨"1", "", "PROBLEM", "", "", "7", "", ""⟩
    (by decide) (Or.inl rfl) (fun _ => rfl) (fun _ _ => rfl)

/-- C10: frame property: a request whose body decodes to an alert with
event_id e changes at most the store entry for e; every other key maps to
the same value before and after, on every path of the handler. -/
theorem C10_frame (secret now : String) (bot : Bot) (st : Store)
    (method : String) (a : ZabbixAlert) (k : String)
    (hk : k ≠ a.eventID) :
    (serveHTTP secret bot st ⟨method, some a⟩ now).store.get k = st.get k := by
  simp only [serveHTTP]
  repeat' split
  all_goals simp [Store.get, Store.set, Store.delete, hk]

/-- Witness for C10 at a concrete input. -/
theorem C10_frame_witness :
    (serveHTTP "" ⟨fun _ => .ok 1, fun _ _ => .ok ()⟩ Store.empty
        ⟨"POST", some ⟨"1", "", "PROBLEM", "", "", "7", "", ""⟩⟩ "N").store.get "8" =
      Store.empty.get "8" :=
  C10_frame "" "N" ⟨fun _ => .ok 1, fun _ _ => .ok ()⟩ Store.empty "POST"
    ⟨"1", "", "PROBLEM", "", "", "7", "", ""⟩ "8" (by decide)

/-- C1: for a PROBLEM request followed by a RESOLVED request for the same
non-empty event_id, both passing the gate and both transport calls
succeeding, the edit call of the second request targets exactly the message
handle m returned by the send of the first request, the second request
succeeds, and afterwards the store holds no entry for that event_id. -/
theorem C1_problem_then_resolved (secret now1 now2 : String) (bot1 bot2 : Bot)
    (st : Store) (a1 a2 : ZabbixAlert) (m : Int)
    (hid : a1.eventID ≠ "")
    (hideq : a2.eventID = a1.eventID)
    (hsec1 : secret = "" ∨ a1.secret = secret)
    (hsec2 : secret = "" ∨ a2.secret = secret)
    (hst1 : a1.status = statusProblem)
    (hst2 : a2.status = statusResolved)
    (hsend : bot1.sendMessage (formatMessage a1 now1 "" "") = .ok m)
    (hedit : ∀ t, bot2.editMessage m t = .ok ()) :
    (serveHTTP secret bot1 st ⟨"POST", some a1⟩ now1).statusCode = 200 ∧
    ∃ t,
      (serveHTTP secret bot2 (serveHTTP secret bot1 st ⟨"POST", some a1⟩ now1).store
          ⟨"POST", some a2⟩ now2).calls = [.edit m t] ∧
      (serveHTTP secret bot2 (serveHTTP secret bot1 st ⟨"POST", some a1⟩ now1).store
          ⟨"POST", some a2⟩ now2).statusCode = 200 ∧
      (serveHTTP secret bot2 (serveHTTP secret bot1 st ⟨"POST", some a1⟩ now1).store
          ⟨"POST", some a2⟩ now2).store.get a1.eventID = none := by
  have hid2 : a2.eventID ≠ "" := by rw [hideq]; exact hid
  have h1 : serveHTTP secret bot1 st ⟨"POST", some a1⟩ now1 =
      ⟨200, st.set a1.eventID ⟨m, now1, a1.message, a1.severity⟩,
        [.send (formatMessage a1 now1 "" "")]⟩ := by
    simp [serveHTTP, hid, secret_gate_pass hsec1, hst1, hsend]
  refine ⟨by rw [h1], ?_⟩
  rw [h1]
  refine ⟨formatMessage
      (if a2.severity = "" ∧ a1.severity ≠ "" then { a2 with severity := a1.severity } else a2)
      now2 now1 a1.message, ?_, ?_, ?_⟩ <;>
    simp [serveHTTP, hid, hid2, secret_gate_pass hsec2, hst2, hedit, Store.get,
      Store.set, Store.delete, hideq, statusProblem, statusResolved]

/-- Witness for C1 at a concrete input. -/
theorem C1_problem_then_resolved_witness :
    (serveHTTP "" ⟨fun _ => .ok 5, fun _ _ => .ok ()⟩ Store.empty
        ⟨"POST", some ⟨"", "", "PROBLEM", "", "", "7", "", ""⟩⟩ "N1").statusCode = 200 ∧
    ∃ t,
      (serveHTTP "" ⟨fun _ => .ok 9, fun _ _ => .ok ()⟩
          (serveHTTP "" ⟨fun _ => .ok 5, fun _ _ => .ok ()⟩ Store.empty
            ⟨"POST", some ⟨"", "", "PROBLEM", "", "", "7", "", ""⟩⟩ "N1").store
          ⟨"POST", some ⟨"", "", "RESOLVED", "", "", "7", "", ""⟩⟩ "N2").calls =
        [.edit 5 t] ∧
      (serveHTTP "" ⟨fun _ => .ok 9, fun _ _ => .ok ()⟩
          (serveHTTP "" ⟨fun _ => .ok 5, fun _ _ => .ok ()⟩ Store.empty
            ⟨"POST", some ⟨"", "", "PROBLEM", "", "", "7", "", ""⟩⟩ "N1").store
          ⟨"POST", some ⟨"", "", "RESOLVED", "", "", "7", "", ""⟩⟩ "N2").statusCode = 200 ∧
      (serveHTTP "" ⟨fun _ => .ok 9, fun _ _ => .ok ()⟩
          (serveHTTP "" ⟨fun _ => .ok 5, fun _ _ => .ok ()⟩ Store.empty
            ⟨"POST", some ⟨"", "", "PROBLEM", "", "", "7", "", ""⟩⟩ "N1").store
          ⟨"POST", some ⟨"", "", "RESOLVED", "", "", "7", "", ""⟩⟩ "N2").store.get "7" =
        none :=
  C1_problem_then_resolved "" "N1" "N2" ⟨fun _ => .ok 5, fun _ _ => .ok ()⟩
    ⟨fun _ => .ok 9, fun _ _ => .ok ()⟩ Store.empty
    ⟨"", "", "PROBLEM", "", "", "7", "", ""⟩ ⟨"", "", "RESOLVED", "", "", "7", "", ""⟩ 5
    (by decide) rfl (Or.inl rfl) (Or.inl rfl) rfl rfl rfl (fun _ => rfl)

/-- C4: a RESOLVED alert with no tracked entry is forwarded as a plain send
(never an edit) and, on transport success, answered 200 with the store
unchanged; and resolving the same event twice, where the entry is found
the first time and absent the second, gives 200 both times, the second
request degrading to a plain send. -/
theorem C4_resolved_untracked_and_twice :
    (∀ (secret now : String) (bot : Bot) (st : Store) (a : ZabbixAlert) (m : Int),
      a.eventID ≠ "" → (secret = "" ∨ a.secret = secret) → a.status = statusResolved →
      st.get a.eventID = none →
      bot.sendMessage (formatMessage a now "" "") = .ok m →
      serveHTTP secret bot st ⟨"POST", some a⟩ now =
        ⟨200, st, [.send (formatMessage a now "" "")]⟩) ∧
    (∀ (secret now1 now2 : String) (bot1 bot2 : Bot) (st : Store) (a1 a2 : ZabbixAlert)
        (entry : Entry) (m : Int),
      a1.eventID ≠ "" → a2.eventID = a1.eventID →
      (secret = "" ∨ a1.secret = secret) → (secret = "" ∨ a2.secret = secret) →
      a1.status = statusResolved → a2.status = statusResolved →
      st.get a1.eventID = some entry →
      (∀ t, bot1.editMessage entry.messageID t = .ok ()) →
      bot2.sendMessage (formatMessage a2 now2 "" "") = .ok m →
      (serveHTTP secret bot1 st ⟨"POST", some a1⟩ now1).statusCode = 200 ∧
      (serveHTTP secret bot2 (serveHTTP secret bot1 st ⟨"POST", some a1⟩ now1).store
          ⟨"POST", some a2⟩ now2).statusCode = 200 ∧
      (serveHTTP secret bot2 (serveHTTP secret bot1 st ⟨"POST", some a1⟩ now1).store
          ⟨"POST", some a2⟩ now2).calls = [.send (formatMessage a2 now2 "" "")]) := by
  constructor
  · intro secret now bot st a m hid hsec hst hfound hsend
    simp only [Store.get] at hfound
    simp [serveHTTP, hid, secret_gate_pass hsec, hst, hfound, hsend, Store.get,
      statusProblem, statusResolved]
  · intro secret now1 now2 bot1 bot2 st a1 a2 entry m hid hideq hsec1 hsec2 hst1 hst2
      hfound hedit hsend
    have hid2 : a2.eventID ≠ "" := by rw [hideq]; exact hid
    simp only [Store.get] at hfound
    have h1 : serveHTTP secret bot1 st ⟨"POST", some a1⟩ now1 =
        ⟨200, st.delete a1.eventID,
          [.edit entry.messageID
            (formatMessage
              (if a1.severity = "" ∧ entry.severity ≠ "" then
                { a1 with severity := entry.severity } else a1)
              now1 entry.startTime entry.message)]⟩ := by
      by_cases hsev : a1.severity = "" ∧ entry.severity ≠ "" <;>
        simp [serveHTTP, hid, secret_gate_pass hsec1, hst1, hfound, hedit, hsev,
          Store.get, statusProblem, statusResolved]
    rw [h1]
    refine ⟨rfl, ?_, ?_⟩ <;>
      simp [serveHTTP, hid, hid2, secret_gate_pass hsec2, hst2, hsend, Store.get,
        Store.delete, hideq, statusProblem, statusResolved]

/-- Witness for C4 at concrete inputs. -/
theorem C4_resolved_untracked_and_twice_witness :
    serveHTTP "" ⟨fun _ => .ok 3, fun _ _ => .ok ()⟩ Store.empty
        ⟨"POST", some ⟨"", "", "RESOLVED", "", "", "7", "", ""⟩⟩ "N" =
      ⟨200, Store.empty,
        [.send (formatMessage ⟨"", "", "RESOLVED", "", "", "7", "", ""⟩ "N" "" "")]⟩ :=
  C4_resolved_untracked_and_twice.1 "" "N" ⟨fun _ => .ok 3, fun _ _ => .ok ()⟩
    Store.empty ⟨"", "", "RESOLVED", "", "", "7", "", ""⟩ 3
    (by decide) (Or.inl rfl) rfl rfl rfl

/-- C9: the networked store soft-fails: Get yields the zero entry and
found = false when the backend call fails (error or timeout), when the key
is absent, and when the fetched bytes do not deserialise; Set is a no-op
on a serialization error and on a backend error; Delete is a no-op on a
backend error.  None of the three has an error channel in its Go
signature, so no error can reach the caller. -/
theorem C9_redis_soft_fail :
    (∀ (unmarshal : String → Except Unit Entry) (backend : String → Option String)
        (eventID : String),
      redisStoreGet unmarshal true backend eventID = (zeroEntry, false)) ∧
    (∀ (unmarshal : String → Except Unit Entry) (bf : Bool)
        (backend : String → Option String) (eventID : String),
      backend eventID = none →
      redisStoreGet unmarshal bf backend eventID = (zeroEntry, false)) ∧
    (∀ (unmarshal : String → Except Unit Entry) (backend : String → Option String)
        (eventID data : String),
      backend eventID = some data → unmarshal data = .error () →
      redisStoreGet unmarshal false backend eventID = (zeroEntry, false)) ∧
    (∀ (marshal : Entry → Except Unit String) (bf : Bool)
        (backend : String → Option String) (eventID : String) (entry : Entry),
      marshal entry = .error () →
      redisStoreSet marshal bf backend eventID entry = backend) ∧
    (∀ (marshal : Entry → Except Unit String)
        (backend : String → Option String) (eventID : String) (entry : Entry),
      redisStoreSet marshal true backend eventID entry = backend) ∧
    (∀ (backend : String → Option String) (eventID : String),
      redisStoreDelete true backend eventID = backend) := by
  refine ⟨?_, ?_, ?_, ?_, ?_, ?_⟩
  · intro unmarshal backend eventID
    simp [redisStoreGet]
  · intro unmarshal bf backend eventID h
    cases bf <;> simp [redisStoreGet, h]
  · intro unmarshal backend eventID data h hu
    simp [redisStoreGet, h, hu]
  · intro marshal bf backend eventID entry h
    simp [redisStoreSet, h]
  · intro marshal backend eventID entry
    cases h : marshal entry <;> simp [redisStoreSet, h]
  · intro backend eventID
    simp [redisStoreDelete]

/-- Witness for C9 at concrete inputs. -/
theorem C9_redis_soft_fail_witness :
    (redisStoreGet (fun _ => .error ()) true (fun _ => none) "k" = (zeroEntry, false)) ∧
    (redisStoreGet (fun _ => .error ()) false (fun _ => none) "k" = (zeroEntry, false)) ∧
    (redisStoreGet (fun _ => .error ()) false (fun _ => some "x") "k" =
      (zeroEntry, false)) ∧
    (redisStoreSet (fun _ => .error ()) false (fun _ => none) "k" zeroEntry =
      (fun _ => none)) ∧
    (redisStoreSet (fun _ => .ok "x") true (fun _ => none) "k" zeroEntry =
      (fun _ => none)) ∧
    (redisStoreDelete true (fun _ => none) "k" = (fun _ => none)) :=
  ⟨C9_redis_soft_fail.1 (fun _ => .error ()) (fun _ => none) "k",
   C9_redis_soft_fail.2.1 (fun _ => .error ()) false (fun _ => none) "k" rfl,
   C9_redis_soft_fail.2.2.1 (fun _ => .error ()) (fun _ => some "x") "k" "x" rfl rfl,
   C9_redis_soft_fail.2.2.2.1 (fun _ => .error ()) false (fun _ => none) "k" zeroEntry rfl,
   C9_redis_soft_fail.2.2.2.2.1 (fun _ => .ok "x") (fun _ => none) "k" zeroEntry,
   C9_redis_soft_fail.2.2.2.2.2 (fun _ => none) "k"⟩

/-- The concrete alert used to refute C8: status INFO is neither PROBLEM
nor RESOLVED, event_id is 9. -/
def infoAlert : ZabbixAlert := ⟨"", "", "INFO", "", "", "9", "", ""⟩

/-- C8 counterexample: after a successful informational send (status INFO,
send returns handle 7, request answered 200 with one send recorded), the
store still has no entry for event_id 9 — no CorrelationEntry is created,
refuting the claim that one is. -/
theorem C8_counterexample :
    (serveHTTP "" ⟨fun _ => .ok 7, fun _ _ => .ok ()⟩ Store.empty
        ⟨"POST", some infoAlert⟩ "N").statusCode = 200 ∧
    (serveHTTP "" ⟨fun _ => .ok 7, fun _ _ => .ok ()⟩ Store.empty
        ⟨"POST", some infoAlert⟩ "N").calls =
      [.send (formatMessage infoAlert "N" "" "")] ∧
    ¬ ∃ e : Entry,
      (serveHTTP "" ⟨fun _ => .ok 7, fun _ _ => .ok ()⟩ Store.empty
          ⟨"POST", some infoAlert⟩ "N").store.get "9" = some e := by
  refine ⟨rfl, rfl, ?_⟩
  rintro ⟨e, he⟩
  simp [serveHTTP, infoAlert, Store.get, Store.empty, statusProblem, statusResolved] at he

/-- C8 amended: after a successful send for an alert whose status is
neither PROBLEM nor RESOLVED, the response is 200, exactly one send is
recorded, and the store is left completely unchanged — informational
alerts are never correlated and create no entry. -/
theorem C8_info_no_entry (secret now : String) (bot : Bot) (st : Store)
    (a : ZabbixAlert) (m : Int)
    (hid : a.eventID ≠ "")
    (hsec : secret = "" ∨ a.secret = secret)
    (hp : a.status ≠ statusProblem)
    (hr : a.status ≠ statusResolved)
    (hsend : bot.sendMessage (formatMessage a now "" "") = .ok m) :
    serveHTTP secret bot st ⟨"POST", some a⟩ now =
      ⟨200, st, [.send (formatMessage a now "" "")]⟩ := by
  simp [serveHTTP, hid, secret_gate_pass hsec, hp, hr, hsend]

/-- Witness for the amended C8 at a concrete input. -/
theorem C8_info_no_entry_witness :
    serveHTTP "" ⟨fun _ => .ok 7, fun _ _ => .ok ()⟩ Store.empty
        ⟨"POST", some infoAlert⟩ "N" =
      ⟨200, Store.empty, [.send (formatMessage infoAlert "N" "" "")]⟩ :=
  C8_info_no_entry "" "N" ⟨fun _ => .ok 7, fun _ _ => .ok ()⟩ Store.empty infoAlert 7
    (by decide) (Or.inl rfl) (by decide) (by decide) rfl

/-- Executable test that needle occurs at the head of hay. -/
def leadsWith : List Char → List Char → Bool
  | _, [] => true
  | [], _ :: _ => false
  | c :: cs, d :: ds => c == d && leadsWith cs ds

/-- Executable substring occurrence test on character lists. -/
def occursInAux (needle : List Char) : List Char → Bool
  | [] => needle.isEmpty
  | c :: cs => leadsWith (c :: cs) needle || occursInAux needle cs

/-- Executable substring occurrence test on strings. -/
def occursIn (needle hay : String) : Bool := occursInAux needle.data hay.data

/-- Simultaneous one-pass escaping of one character, following the spec
wording that the three characters with markup meaning are replaced by
their escape sequences. -/
def escChar (c : Char) : List Char :=
  if c = '&' then "&amp;".data
  else if c = '<' then "&lt;".data
  else if c = '>' then "&gt;".data
  else [c]

/-- Modelled from the spec: escaping as a single simultaneous replacement
of each of the three special characters by its escape sequence. -/
def escapeHTMLSpec (s : String) : String :=
  ⟨s.data.foldr (fun c acc => escChar c ++ acc) []⟩

/-- replaceAllChar distributes over list append. -/
theorem replaceAllChar_append (l1 l2 : List Char) (old : Char) (rep : List Char) :
    replaceAllChar (l1 ++ l2) old rep =
      replaceAllChar l1 old rep ++ replaceAllChar l2 old rep := by
  induction l1 with
  | nil => rfl
  | cons c cs ih => simp [replaceAllChar, ih]

/-- The three sequential replacement passes of escapeHTML equal one
simultaneous pass with escChar. -/
theorem escape_chain : ∀ l : List Char,
    replaceAllChar (replaceAllChar (replaceAllChar l '&' "&amp;".data)
        '<' "&lt;".data) '>' "&gt;".data =
      l.foldr (fun c acc => escChar c ++ acc) []
  | [] => rfl
  | c :: cs => by
    have ih := escape_chain cs
    simp only [replaceAllChar, List.foldr_cons, replaceAllChar_append]
    rw [ih]
    congr 1
    by_cases h1 : c = '&'
    · subst h1; decide
    · by_cases h2 : c = '<'
      · subst h2; decide
      · by_cases h3 : c = '>'
        · subst h3; decide
        · simp [replaceAllChar, h1, h2, h3, escChar]

/-- Appending to an accumulator under a conditional equals the accumulator
followed by the conditional part. -/
theorem ite_append_skip (c : Prop) [Decidable c] (sb y : String) :
    (if c then sb ++ y else sb) = sb ++ (if c then y else "") := by
  by_cases h : c <;> simp [h]

/-- Structural form of formatMessage: the concatenation of one part per
output line, where every optional part is empty exactly when its field is
empty, and every alert field is embedded through escapeHTML. -/
theorem formatMessage_parts (a : ZabbixAlert) (now startTime origMessage : String) :
    formatMessage a now startTime origMessage =
      (statusEmoji a.status ++ " <b>" ++ escapeHTML a.status ++ "</b>\n")
      ++ (if a.triggerName = "" then "" else
            "🔔 <b>Trigger:</b> " ++ escapeHTML a.triggerName ++ "\n")
      ++ (if a.host = "" then "" else
            "🖥 <b>Host:</b> " ++ escapeHTML a.host ++ "\n")
      ++ (if a.severity = "" then "" else
            severityEmoji a.severity ++ " <b>Severity:</b> " ++ escapeHTML a.severity ++ "\n")
      ++ (if (if a.status = statusResolved ∧ origMessage ≠ "" then origMessage
              else a.message) = "" then ""
          else "📝 <b>Details:</b> " ++
            escapeHTML (if a.status = statusResolved ∧ origMessage ≠ "" then origMessage
              else a.message) ++ "\n")
      ++ (if a.eventID = "" then "" else
            "🆔 <b>Event ID:</b> " ++ escapeHTML a.eventID ++ "\n")
      ++ (if a.status = statusResolved then
            (if startTime = "" then "" else "🕐 <b>Start Time:</b> " ++ startTime ++ "\n")
              ++ "🕑 <b>End Time:</b> " ++ now
          else "🕐 <b>Start Time:</b> " ++ now) := by
  have e2 : ∀ sb : String, (if a.triggerName ≠ "" then
      sb ++ "🔔 <b>Trigger:</b> " ++ escapeHTML a.triggerName ++ "\n" else sb) =
      sb ++ (if a.triggerName = "" then "" else
        "🔔 <b>Trigger:</b> " ++ escapeHTML a.triggerName ++ "\n") := by
    intro sb
    by_cases h : a.triggerName = "" <;> simp [h, String.append_assoc]
  have e3 : ∀ sb : String, (if a.host ≠ "" then
      sb ++ "🖥 <b>Host:</b> " ++ escapeHTML a.host ++ "\n" else sb) =
      sb ++ (if a.host = "" then "" else
        "🖥 <b>Host:</b> " ++ escapeHTML a.host ++ "\n") := by
    intro sb
    by_cases h : a.host = "" <;> simp [h, String.append_assoc]
  have e4 : ∀ sb : String, (if a.severity ≠ "" then
      sb ++ severityEmoji a.severity ++ " <b>Severity:</b> " ++ escapeHTML a.severity ++ "\n"
      else sb) =
      sb ++ (if a.severity = "" then "" else
        severityEmoji a.severity ++ " <b>Severity:</b> " ++ escapeHTML a.severity ++ "\n") := by
    intro sb
    by_cases h : a.severity = "" <;> simp [h, String.append_assoc]
  have e5 : ∀ (M : String) (sb : String), (if M ≠ "" then
      sb ++ "📝 <b>Details:</b> " ++ escapeHTML M ++ "\n" else sb) =
      sb ++ (if M = "" then "" else "📝 <b>Details:</b> " ++ escapeHTML M ++ "\n") := by
    intro M sb
    by_cases h : M = "" <;> simp [h, String.append_assoc]
  have e6 : ∀ sb : String, (if a.eventID ≠ "" then
      sb ++ "🆔 <b>Event ID:</b> " ++ escapeHTML a.eventID ++ "\n" else sb) =
      sb ++ (if a.eventID = "" then "" else
        "🆔 <b>Event ID:</b> " ++ escapeHTML a.eventID ++ "\n") := by
    intro sb
    by_cases h : a.eventID = "" <;> simp [h, String.append_assoc]
  have e7 : ∀ sb : String, (if a.status = statusResolved then
      (if startTime ≠ "" then sb ++ "🕐 <b>Start Time:</b> " ++ startTime ++ "\n" else sb)
        ++ "🕑 <b>End Time:</b> " ++ now
      else sb ++ "🕐 <b>Start Time:</b> " ++ now) =
      sb ++ (if a.status = statusResolved then
        (if startTime = "" then "" else "🕐 <b>Start Time:</b> " ++ startTime ++ "\n")
          ++ "🕑 <b>End Time:</b> " ++ now
        else "🕐 <b>Start Time:</b> " ++ now) := by
    intro sb
    by_cases h6 : a.status = statusResolved <;> by_cases h7 : startTime = "" <;>
      simp [h6, h7, String.append_assoc]
  simp only [formatMessage]
  rw [e7, e6, e5, e4, e3, e2]

/-- A seven-part concatenation splits around its fourth part. -/
theorem splitSlot4 (x1 x2 x3 x4 x5 x6 x7 : String) :
    ∃ p q, x1 ++ x2 ++ x3 ++ x4 ++ x5 ++ x6 ++ x7 = p ++ x4 ++ q :=
  ⟨x1 ++ x2 ++ x3, x5 ++ x6 ++ x7, by simp [String.append_assoc]⟩

/-- A seven-part concatenation splits around its fifth part. -/
theorem splitSlot5 (x1 x2 x3 x4 x5 x6 x7 : String) :
    ∃ p q, x1 ++ x2 ++ x3 ++ x4 ++ x5 ++ x6 ++ x7 = p ++ x5 ++ q :=
  ⟨x1 ++ x2 ++ x3 ++ x4, x6 ++ x7, by simp [String.append_assoc]⟩

/-- C7: escaping and omitted lines.  First, escapeHTML (the three
sequential ReplaceAll passes) equals the simultaneous one-pass replacement
of amp, lt and gt by their escape sequences, so every occurrence of the
three characters in any alert field is replaced before embedding.  Second,
the formatted message is the concatenation of one part per line, each
alert field embedded only through escapeHTML, and each optional part empty
exactly when the corresponding field is empty, so an omitted field yields
no output line. -/
theorem C7_escaping_and_omitted :
    (∀ s : String, escapeHTML s = escapeHTMLSpec s) ∧
    (∀ (a : ZabbixAlert) (now startTime origMessage : String),
      formatMessage a now startTime origMessage =
        (statusEmoji a.status ++ " <b>" ++ escapeHTML a.status ++ "</b>\n")
        ++ (if a.triggerName = "" then "" else
              "🔔 <b>Trigger:</b> " ++ escapeHTML a.triggerName ++ "\n")
        ++ (if a.host = "" then "" else
              "🖥 <b>Host:</b> " ++ escapeHTML a.host ++ "\n")
        ++ (if a.severity = "" then "" else
              severityEmoji a.severity ++ " <b>Severity:</b> " ++ escapeHTML a.severity ++ "\n")
        ++ (if (if a.status = statusResolved ∧ origMessage ≠ "" then origMessage
                else a.message) = "" then ""
            else "📝 <b>Details:</b> " ++
              escapeHTML (if a.status = statusResolved ∧ origMessage ≠ "" then origMessage
                else a.message) ++ "\n")
        ++ (if a.eventID = "" then "" else
              "🆔 <b>Event ID:</b> " ++ escapeHTML a.eventID ++ "\n")
        ++ (if a.status = statusResolved then
              (if startTime = "" then "" else "🕐 <b>Start Time:</b> " ++ startTime ++ "\n")
                ++ "🕑 <b>End Time:</b> " ++ now
            else "🕐 <b>Start Time:</b> " ++ now)) :=
  ⟨fun s => congrArg String.mk (escape_chain s.data), formatMessage_parts⟩

/-- The RESOLVED alert used to refute C6: it carries its own non-empty
message "own". -/
def c6Alert : ZabbixAlert := ⟨"", "", "RESOLVED", "", "", "1", "own", ""⟩

/-- The store used to refute C6: event 1 is tracked with preserved message
"orig" and message handle 5. -/
def c6Store : Store :=
  fun k => if k = "1" then some ⟨5, "T0", "orig", ""⟩ else none

/-- C6 counterexample: the RESOLVED alert carries its own non-empty
message "own", yet the text passed to the edit call embeds the preserved
PROBLEM-time message "orig" and the alert message "own" appears nowhere in
the output — refuting the claim that the preserved message is substituted
only when the alert message is empty. -/
theorem C6_counterexample :
    c6Alert.message = "own" ∧ c6Alert.message ≠ "" ∧
    (serveHTTP "" ⟨fun _ => .ok 1, fun _ _ => .ok ()⟩ c6Store
        ⟨"POST", some c6Alert⟩ "N").calls =
      [.edit 5 ("✅ <b>RESOLVED</b>\n📝 <b>Details:</b> orig\n🆔 <b>Event ID:</b> 1\n"
        ++ "🕐 <b>Start Time:</b> T0\n🕑 <b>End Time:</b> N")] ∧
    occursIn "own"
      ("✅ <b>RESOLVED</b>\n📝 <b>Details:</b> orig\n🆔 <b>Event ID:</b> 1\n"
        ++ "🕐 <b>Start Time:</b> T0\n🕑 <b>End Time:</b> N") = false ∧
    occursIn "orig"
      ("✅ <b>RESOLVED</b>\n📝 <b>Details:</b> orig\n🆔 <b>Event ID:</b> 1\n"
        ++ "🕐 <b>Start Time:</b> T0\n🕑 <b>End Time:</b> N") = true := by
  refine ⟨rfl, by decide, ?_, by decide, by decide⟩
  decide

/-- C6 as amended: on the tracked-RESOLVED path the edit text embeds the
stored severity exactly when the alert severity is empty and the stored
one non-empty (otherwise the alert severity), while the stored message
replaces the alert message whenever the stored message is non-empty —
regardless of the alert message — and the alert message is embedded only
when the stored message is empty. -/
theorem C6_resolved_fallback_corrected (secret now : String) (bot : Bot) (st : Store)
    (a : ZabbixAlert) (entry : Entry)
    (hid : a.eventID ≠ "")
    (hsec : secret = "" ∨ a.secret = secret)
    (hst : a.status = statusResolved)
    (hfound : st.get a.eventID = some entry)
    (hedit : ∀ t, bot.editMessage entry.messageID t = .ok ()) :
    ∃ t,
      (serveHTTP secret bot st ⟨"POST", some a⟩ now).calls = [.edit entry.messageID t] ∧
      (a.severity ≠ "" →
        ∃ p q, t = p ++ (severityEmoji a.severity ++ " <b>Severity:</b> " ++
          escapeHTML a.severity ++ "\n") ++ q) ∧
      (a.severity = "" → entry.severity ≠ "" →
        ∃ p q, t = p ++ (severityEmoji entry.severity ++ " <b>Severity:</b> " ++
          escapeHTML entry.severity ++ "\n") ++ q) ∧
      (entry.message ≠ "" →
        ∃ p q, t = p ++ ("📝 <b>Details:</b> " ++ escapeHTML entry.message ++ "\n") ++ q) ∧
      (entry.message = "" → a.message ≠ "" →
        ∃ p q, t = p ++ ("📝 <b>Details:</b> " ++ escapeHTML a.message ++ "\n") ++ q) := by
  simp only [Store.get] at hfound
  refine ⟨formatMessage
      (if a.severity = "" ∧ entry.severity ≠ "" then { a with severity := entry.severity }
       else a) now entry.startTime entry.message, ?_, ?_, ?_, ?_, ?_⟩
  · simp [serveHTTP, hid, secret_gate_pass hsec, hst, hfound, hedit, Store.get,
      statusProblem, statusResolved]
  · intro h
    rw [if_neg (by simp [h]), formatMessage_parts]
    simp only [h, if_neg h]
    exact splitSlot4 _ _ _ _ _ _ _
  · intro h h2
    rw [if_pos ⟨h, h2⟩, formatMessage_parts]
    simp only [if_neg h2]
    exact splitSlot4 _ _ _ _ _ _ _
  · intro h
    by_cases hsev : a.severity = "" ∧ entry.severity ≠ "" <;>
      [rw [if_pos hsev, formatMessage_parts]; rw [if_neg hsev, formatMessage_parts]] <;>
      simp only [hst, h, ne_eq, not_false_eq_true, and_self, if_pos, if_neg,
        not_true_eq_false] <;>
      [skip; skip] <;>
      exact splitSlot5 _ _ _ _ _ _ _
  · intro h h2
    by_cases hsev : a.severity = "" ∧ entry.severity ≠ "" <;>
      [rw [if_pos hsev, formatMessage_parts]; rw [if_neg hsev, formatMessage_parts]] <;>
      simp only [hst, h, h2, ne_eq, not_true_eq_false, and_false, if_neg, if_pos,
        not_false_eq_true] <;>
      exact splitSlot5 _ _ _ _ _ _ _

/-- Witness for the amended C6 at a concrete input. -/
theorem C6_resolved_fallback_corrected_witness :
    ∃ t,
      (serveHTTP "" ⟨fun _ => .ok 1, fun _ _ => .ok ()⟩ c6Store
          ⟨"POST", some c6Alert⟩ "N").calls = [.edit 5 t] ∧
      (("" : String) ≠ "" →
        ∃ p q, t = p ++ (severityEmoji "" ++ " <b>Severity:</b> " ++
          escapeHTML "" ++ "\n") ++ q) ∧
      (("" : String) = "" → ("" : String) ≠ "" →
        ∃ p q, t = p ++ (severityEmoji "" ++ " <b>Severity:</b> " ++
          escapeHTML "" ++ "\n") ++ q) ∧
      (("orig" : String) ≠ "" →
        ∃ p q, t = p ++ ("📝 <b>Details:</b> " ++ escapeHTML "orig" ++ "\n") ++ q) ∧
      (("orig" : String) = "" → ("own" : String) ≠ "" →
        ∃ p q, t = p ++ ("📝 <b>Details:</b> " ++ escapeHTML "own" ++ "\n") ++ q) :=
  C6_resolved_fallback_corrected "" "N" ⟨fun _ => .ok 1, fun _ _ => .ok ()⟩ c6Store
    c6Alert ⟨5, "T0", "orig", ""⟩ (by decide) (Or.inl rfl) rfl rfl (fun _ => rfl)

end ZabxBot
